import Mathlib

/-!
Shallow embedding of `licencia_scraper.py` (fpalencia/licencia_scraper).

The embedding models the pure decision logic of the scraper:
  * the RUT validator / formatter (`_validate_rut`, `_format_rut`),
  * the error-message scan (`_check_error_messages`, including the regex
    pattern table translated to explicit scanners),
  * the page classifier (`check_availability`, `_continue_availability_check`),
  * the interstitial guard (`_detect_and_close_modals`, `_close_modal`),
  * one iteration of the click-until-clear loop
    (`_click_especialidad_button_with_modal_retry`),
  * the automatic decision policy (`handle_error_automatically`).

External effects (live DOM queries, screenshots, waits, logging) are modelled
as oracle data carried by a `PageState` / `ModalPage` record; a fallible
`page.content()` read is an `Except String String`.  Timestamps are omitted
from outcome records.  Python strings are modelled as `String`; `str.upper` /
`str.lower` are modelled on ASCII plus the accented Spanish letters that occur
in the scraper's pattern tables.
-/

namespace LicenciaScraper

/-- Python `str.lower` restricted to the alphabet this program manipulates:
ASCII plus the accented letters appearing in the pattern tables. -/
def pyLower (c : Char) : Char :=
  if c = 'Á' then 'á' else if c = 'É' then 'é' else if c = 'Í' then 'í'
  else if c = 'Ó' then 'ó' else if c = 'Ú' then 'ú' else if c = 'Ñ' then 'ñ'
  else c.toLower

/-- Python `str.upper`, same alphabet restriction as `pyLower`. -/
def pyUpper (c : Char) : Char :=
  if c = 'á' then 'Á' else if c = 'é' then 'É' else if c = 'í' then 'Í'
  else if c = 'ó' then 'Ó' else if c = 'ú' then 'Ú' else if c = 'ñ' then 'Ñ'
  else c.toUpper

/-- Python whitespace for `str.strip` / `\s` (ASCII whitespace set). -/
def isPySpace (c : Char) : Bool :=
  c = ' ' || c = '\t' || c = '\n' || c = '\r' || c.toNat = 11 || c.toNat = 12

/-- `rut.replace(" ", "").replace(".", "").upper()` — the stripping step shared
by `_validate_rut` and `_format_rut` (replacing a single character with the
empty string is a filter). -/
def stripL (l : List Char) : List Char :=
  ((l.filter (fun c => c ≠ ' ')).filter (fun c => c ≠ '.')).map pyUpper

/-- String-level wrapper for `stripL`. -/
def stripRut (s : String) : String := String.mk (stripL s.data)

/-- Python `pat in hay` on lists of characters (substring test). -/
def containsSub (pat : List Char) : List Char → Bool
  | [] => pat.isEmpty
  | c :: rest => pat.isPrefixOf (c :: rest) || containsSub pat rest

/-- Python `pat in hay` on strings. -/
def containsStr (hay pat : String) : Bool := containsSub pat.data hay.data

/-- Python `s.lower()` on a whole string. -/
def pyLowerStr (s : String) : String := String.mk (s.data.map pyLower)

/-- Python `s.strip()`. -/
def pyStrip (s : String) : String :=
  String.mk (((s.data.dropWhile isPySpace).reverse.dropWhile isPySpace).reverse)

/-! ## RUT validation (`_validate_rut`, lines 70–112) -/

/-- The regex `^\d{7,8}-[\dK]$`: 7–8 digits, a dash, one digit-or-K. -/
def isRutFormat (l : List Char) : Bool :=
  match l.reverse with
  | c :: d :: rds =>
    d = '-' && (rds.length = 7 || rds.length = 8) && rds.all Char.isDigit &&
      (c.isDigit || c = 'K')
  | _ => false

/-- The checksum accumulation loop: `suma += int(digit) * multiplicador`,
with `multiplicador` stepping 2,3,4,5,6,7,2,…  The argument list is the
digit list already reversed (Python iterates `reversed(numero)`). -/
def rutChecksumAux : List Char → Nat → Nat
  | [], _ => 0
  | d :: ds, m =>
    (d.toNat - 48) * m + rutChecksumAux ds (if m + 1 > 7 then 2 else m + 1)

/-- `dv_calculado` computed from the digit part (in what Python calls
`numero` order, most significant first). -/
def rutDv (numero : List Char) : Char :=
  let resto := rutChecksumAux numero.reverse 2 % 11
  let dvc := 11 - resto
  if dvc = 11 then '0' else if dvc = 10 then 'K' else Char.ofNat (48 + dvc)

/-- `_validate_rut`: strip spaces/periods, upper-case, check the format
regex, then compare the supplied check character with the computed one. -/
def validateRut (raw : String) : Bool :=
  let l := (stripRut raw).data
  if isRutFormat l then
    match l.reverse with
    | c :: _ :: rds => c = rutDv rds.reverse
    | _ => false
  else false

/-- `_format_rut` (lines 114–131): strip spaces/periods, upper-case; if the
result has no dash **and** has length at least 8, insert a dash before the
final character. -/
def formatRut (raw : String) : String :=
  let r := stripRut raw
  let cs := r.data
  if !cs.contains '-' && decide (cs.length ≥ 8) then
    match cs.reverse with
    | [] => r
    | last :: restRev => String.mk (restRev.reverse ++ ['-', last])
  else r

/-! ## The error-pattern scan of `_check_error_messages` (lines 639–659)

Each entry of the Python `error_patterns` regex list (compiled with
`re.IGNORECASE | re.DOTALL`) is translated to an explicit scanner.  A scanner
`try… : List Char → Option Nat` reports the length of the (leftmost-minimal)
match anchored at the head of its argument, and `scanPat` replays
`re.findall`'s left-to-right non-overlapping scan. -/

/-- Case-insensitive character equality (`re.IGNORECASE`). -/
def ciEq (a b : Char) : Bool := pyLower a = pyLower b

/-- Case-insensitive prefix test. -/
def isPrefixCI : List Char → List Char → Bool
  | [], _ => true
  | _ :: _, [] => false
  | p :: ps, c :: cs => ciEq p c && isPrefixCI ps cs

/-- Index of the first character satisfying `p` (the list's length if none) —
used for the minimal extent of `.*?(?=<|$)` and for `\s*` runs. -/
def idxUntil (p : Char → Bool) : List Char → Nat
  | [] => 0
  | c :: r => if p c then 0 else idxUntil p r + 1

/-- First index where `p` holds, if any. -/
def findIdxP (p : Char → Bool) : List Char → Option Nat
  | [] => none
  | c :: r => if p c then some 0 else (findIdxP p r).map (· + 1)

/-- First index where `pat` occurs case-insensitively, if any (the minimal
`.*?` gap before a literal). -/
def findIdxCI (pat : List Char) : List Char → Option Nat
  | [] => none
  | c :: rest =>
    if isPrefixCI pat (c :: rest) then some 0 else (findIdxCI pat rest).map (· + 1)

/-- A literal pattern (the escaped-literal entries of the table). -/
def tryLit (pat : List Char) (s : List Char) : Option Nat :=
  if isPrefixCI pat s then some pat.length else none

/-- `Error:.*?(?=<|$)` — `Error:` followed minimally up to a `<` or the end. -/
def tryErrTail (s : List Char) : Option Nat :=
  let pat := "Error:".data
  if isPrefixCI pat s then
    some (pat.length + idxUntil (fun c => c = '<') (s.drop pat.length))
  else none

/-- `Atención!.*?Error:.*?(?=<|$)`. -/
def tryAtTail (s : List Char) : Option Nat :=
  let a := "Atención!".data
  let e := "Error:".data
  if isPrefixCI a s then
    match findIdxCI e (s.drop a.length) with
    | some i =>
      let o := a.length + i + e.length
      some (o + idxUntil (fun c => c = '<') (s.drop o))
    | none => none
  else none

/-- `<b[^>]*>.*?Atención!.*?Error:.*?</b>` — a bold error banner.  `[^>]*>`
runs to the first `>`; each `.*?` runs minimally to the next literal. -/
def tryBold (s : List Char) : Option Nat :=
  match s with
  | lt :: b :: rest =>
    if lt = '<' && ciEq b 'b' then
      match findIdxP (fun c => c = '>') rest with
      | some j =>
        let a := "Atención!".data
        let e := "Error:".data
        let cb := "</b>".data
        let o1 := 2 + j + 1
        match findIdxCI a (s.drop o1) with
        | some i1 =>
          let o2 := o1 + i1 + a.length
          match findIdxCI e (s.drop o2) with
          | some i2 =>
            let o3 := o2 + i2 + e.length
            match findIdxCI cb (s.drop o3) with
            | some i3 => some (o3 + i3 + cb.length)
            | none => none
          | none => none
        | none => none
      | none => none
    else none
  | _ => none

/-- `\*\*Atención!\*\*\s*Error:.*?(?=<|$)`. -/
def tryStarAt (s : List Char) : Option Nat :=
  let star := "**Atención!**".data
  let e := "Error:".data
  if isPrefixCI star s then
    let w := idxUntil (fun c => !(isPySpace c)) (s.drop star.length)
    if isPrefixCI e (s.drop (star.length + w)) then
      let o := star.length + w + e.length
      some (o + idxUntil (fun c => c = '<') (s.drop o))
    else none
  else none

/-- `Atención!\s*Error:.*?Ud\. ha excedido el tiempo máximo de espera`. -/
def tryAtUd (s : List Char) : Option Nat :=
  let a := "Atención!".data
  let e := "Error:".data
  let ud := "Ud. ha excedido el tiempo máximo de espera".data
  if isPrefixCI a s then
    let w := idxUntil (fun c => !(isPySpace c)) (s.drop a.length)
    if isPrefixCI e (s.drop (a.length + w)) then
      let o := a.length + w + e.length
      match findIdxCI ud (s.drop o) with
      | some i => some (o + i + ud.length)
      | none => none
    else none
  else none

/-- `re.findall`: scan left to right, taking non-overlapping matches and
resuming after each match (all matches here are nonempty).  The fuel
argument makes the recursion structural; every step consumes at least one
character, so fuel equal to the list length never runs out. -/
def scanPatFuel (m : List Char → Option Nat) : Nat → List Char → List (List Char)
  | 0, _ => []
  | _, [] => []
  | fuel + 1, c :: rest =>
    match m (c :: rest) with
    | some len => (c :: rest).take len :: scanPatFuel m fuel (rest.drop (len - 1))
    | none => scanPatFuel m fuel rest

/-- `re.findall` over a whole string. -/
def scanPat (m : List Char → Option Nat) (s : List Char) : List (List Char) :=
  scanPatFuel m s.length s

/-- All raw matches of the eleven `error_patterns`, in table order. -/
def errorPatternScans (content : List Char) : List (List Char) :=
  scanPat tryBold content ++
  scanPat tryErrTail content ++
  scanPat tryAtTail content ++
  scanPat (tryLit "ud. ha excedido el tiempo máximo de espera".data) content ++
  scanPat (tryLit "tiempo máximo de espera".data) content ++
  scanPat (tryLit "no existen horas disponibles".data) content ++
  scanPat (tryLit "sin disponibilidad".data) content ++
  scanPat (tryLit "agendas llenas".data) content ++
  scanPat tryStarAt content ++
  scanPat tryAtUd content ++
  scanPat (tryLit "Buscando especialidades....".data) content

/-- `re.sub(r'<[^>]+>', '', match)`: delete tag-like runs (a `<`, at least one
non-`>` character, then `>`); an unclosed `<` (or an immediate `<>`) is kept
verbatim.  Fuel-structural as in `scanPatFuel`. -/
def stripTagsFuel : Nat → List Char → List Char
  | 0, _ => []
  | _, [] => []
  | fuel + 1, c :: rest =>
    if c = '<' then
      match findIdxP (fun x => x = '>') rest with
      | some j =>
        if j = 0 then '<' :: stripTagsFuel fuel rest
        else stripTagsFuel fuel (rest.drop (j + 1))
      | none => '<' :: stripTagsFuel fuel rest
    else c :: stripTagsFuel fuel rest

/-- `re.sub(r'<[^>]+>', '', l)`. -/
def stripTags (l : List Char) : List Char := stripTagsFuel l.length l

/-- `re.sub(r'<[^>]+>', '', match).strip()` applied to one raw match. -/
def cleanErrText (m : List Char) : String := pyStrip (String.mk (stripTags m))

/-- `found_errors` (lines 625–659): texts found by the error selectors (DOM
oracle, already appended by the selector loop with `strip()` and the
nonempty filter), then each pattern match cleaned, deduplicated against the
accumulated list, and appended. -/
def collectErrors (selTexts : List String) (content : String) : List String :=
  let base := (selTexts.map pyStrip).filter (fun t => t ≠ "")
  (errorPatternScans content.data).foldl
    (fun acc m =>
      let clean := cleanErrText m
      if clean ≠ "" && !(acc.contains clean) then acc ++ [clean] else acc)
    base

/-! ## Data model -/

/-- An outcome dictionary as built by the classifier (the `timestamp` key and
the `estatus_info` payload are omitted; `all_errors` is present, empty when
the source dict has no such key). -/
structure Outcome where
  available : Option Bool
  status : String
  message : String
  url : String
  allErrors : List String
deriving Repr, DecidableEq

/-- The configuration surface consumed by the classifier. -/
structure Config where
  errorUrlPattern : String
deriving Repr, DecidableEq

/-- The `ERROR_URL_PATTERN` default from `__init__` / `setup_env.py`. -/
def defaultConfig : Config :=
  { errorUrlPattern := "paso-1.aspx?Error=No%20existen%20horas%20disponibles" }

/-- One overlay-like DOM element as probed by `_detect_and_close_modals` /
`_close_modal`: the computed-style and layout facts the visibility probe
reads, whether the probe itself raises, and the facts `_close_modal`
consults. -/
structure ModalEl where
  displayNone : Bool
  visibilityHidden : Bool
  opacityZero : Bool
  offsetHeight : Nat
  offsetWidth : Nat
  probeFault : Bool
  hasCloseButton : Bool
  closeFault : Bool
  hiddenByEscape : Bool
deriving Repr, DecidableEq

/-- The DOM oracle for one `_detect_and_close_modals` call: the element list
returned for each selector of `modal_selectors`, in selector order, plus a
flag for a fault escaping to the function's outer `except`. -/
structure ModalPage where
  scans : List (List ModalEl)
  outerFault : Bool
deriving Repr, DecidableEq

/-- The part of `_handle_estatus_page`'s result that `check_availability`
consults: the `errors` list of the page-scripted probe. -/
structure EstatusInfo where
  errors : List String
deriving Repr, DecidableEq

/-- Decidable equality for fallible content reads. -/
instance : DecidableEq (Except String String) := fun a b =>
  match a, b with
  | .ok x, .ok y =>
    if h : x = y then .isTrue (by rw [h]) else .isFalse (by simp [h])
  | .error x, .error y =>
    if h : x = y then .isTrue (by rw [h]) else .isFalse (by simp [h])
  | .ok _, .error _ => .isFalse (by simp)
  | .error _, .ok _ => .isFalse (by simp)

/-- A page state: the URL, the (fallible) content read, and the DOM oracles
consulted during classification. -/
structure PageState where
  url : String
  content : Except String String
  errorSelectorTexts : List String
  estatusInfo : Option EstatusInfo
  nextStepPresent : List String
  modalScan : ModalPage
deriving Repr, DecidableEq

/-! ## Interstitial guard (`_detect_and_close_modals`, `_close_modal`) -/

/-- The visibility probe evaluated on an element (lines 1542–1551). -/
def modalVisible (m : ModalEl) : Bool :=
  !m.displayNone && !m.visibilityHidden && !m.opacityZero &&
    decide (m.offsetHeight > 0) && decide (m.offsetWidth > 0)

/-- `_close_modal` (lines 1576–1679): close button, Escape, click outside,
then JavaScript force-hide; the last method returns `True` unconditionally,
so only a raised fault yields `False`. -/
def closeModal (m : ModalEl) : Bool :=
  if m.closeFault then false
  else if m.hasCloseButton then true
  else if m.hiddenByEscape then true
  else true

/-- The inner element loop for one selector: a probe fault aborts the
selector (the per-selector `except … continue`); a visible element sets the
flag and triggers a close attempt, and the loop continues. -/
def scanModals : List ModalEl → Bool
  | [] => false
  | m :: rest =>
    if m.probeFault then false
    else
      let foundHere := modalVisible m
      let _ := if foundHere then closeModal m else true
      foundHere || scanModals rest

/-- `_detect_and_close_modals` (lines 1494–1574): returns whether any visible
overlay was found, regardless of dismissal success; a fault reaching the
outer handler returns `False`. -/
def detectAndCloseModals (mp : ModalPage) : Bool :=
  if mp.outerFault then false
  else mp.scans.foldl (fun acc sel => acc || scanModals sel) false

/-! ## `_check_error_messages` (lines 599–709) -/

/-- `' '.join(found_errors).lower()`. -/
def joinedErrors (found : List String) : String :=
  pyLowerStr (String.intercalate " " found)

/-- `_check_error_messages`: collect errors, then classify the joined text;
returns `none` when no errors were found or when a fault was caught. -/
def checkErrorMessages (page : PageState) : Option Outcome :=
  match page.content with
  | .error _ => none
  | .ok content =>
    let found := collectErrors page.errorSelectorTexts content
    if found.isEmpty then none
    else
      let etl := joinedErrors found
      let first := found.headD ""
      if containsStr etl "tiempo máximo de espera" || containsStr etl "excedido" then
        some { available := some false, status := "timeout_error",
               message := "Error de timeout detectado: " ++ first,
               url := page.url, allErrors := found }
      else if containsStr etl "no existen horas" || containsStr etl "sin disponibilidad" then
        some { available := some false, status := "no_availability_error",
               message := "Sin disponibilidad: " ++ first,
               url := page.url, allErrors := found }
      else
        some { available := none, status := "unknown_error",
               message := "Error desconocido: " ++ first,
               url := page.url, allErrors := found }

/-! ## Page classifier (`check_availability`, `_continue_availability_check`) -/

/-- `no_availability_keywords` (lines 782–790 and 1043–1051). -/
def noAvailabilityKeywords : List String :=
  ["no existen horas disponibles", "sin disponibilidad", "no hay citas",
   "agendas llenas", "sin cupos", "ud. ha excedido el tiempo máximo de espera",
   "tiempo máximo de espera"]

/-- `availability_keywords` (lines 793–798 and 1054–1059). -/
def availabilityKeywords : List String :=
  ["seleccione fecha", "horarios disponibles", "agendar cita", "reservar hora"]

/-- `next_step_selectors` (lines 832–838 and 1088–1094). -/
def nextStepSelectors : List String :=
  ["select[name*=\"fecha\"]", "input[type=\"date\"]", ".calendar",
   "#calendario", "select[name*=\"hora\"]"]

/-- The keyword/structure sweep shared by the tail of `check_availability`
(lines 800–863) and `_continue_availability_check` (lines 1061–1115):
no-availability keywords, then availability keywords, then next-step
elements, else uncertain. -/
def contentSweep (page : PageState) (content : String) (currentUrl : String) : Outcome :=
  let contentLower := pyLowerStr content
  match noAvailabilityKeywords.find? (fun k => containsStr contentLower k) with
  | some k =>
    { available := some false, status := "no_availability_content",
      message := "Detectado en contenido: " ++ k, url := currentUrl, allErrors := [] }
  | none =>
    match availabilityKeywords.find? (fun k => containsStr contentLower k) with
    | some k =>
      { available := some true, status := "availability_found",
        message := "Disponibilidad detectada: " ++ k, url := currentUrl, allErrors := [] }
    | none =>
      match nextStepSelectors.find? (fun sel => page.nextStepPresent.contains sel) with
      | some sel =>
        { available := some true, status := "possible_availability",
          message := "Elemento de selección encontrado: " ++ sel,
          url := currentUrl, allErrors := [] }
      | none =>
        { available := none, status := "uncertain",
          message := "No se pudo determinar la disponibilidad automáticamente",
          url := currentUrl, allErrors := [] }

/-- `_continue_availability_check` (lines 1031–1124): the keyword sweep on the
post-click page; a caught fault yields the `error` outcome. -/
def continueAvailabilityCheck (page : PageState) : Outcome :=
  match page.content with
  | .error e =>
    { available := none, status := "error",
      message := "Error durante verificación continua: " ++ e,
      url := page.url, allErrors := [] }
  | .ok content => contentSweep page content page.url

/-- The result of one `check_availability` call: either an outcome dict, or
the transfer of control into `_click_especialidad_button_with_modal_retry`
(line 760), whose iterations are modelled separately by `clickCycleStep`. -/
inductive CheckResult where
  | outcome (o : Outcome)
  | clickLoop
deriving Repr, DecidableEq

/-- `check_availability` (lines 711–876).  Branch order as in the source:
modal sweep (result unused for the value), then the `paso-1.aspx` /
`estatus.aspx` branch (error scan first, then the estatus probe, then the
especialidades click loop), then the error-URL-pattern test, then the content
sweep; a caught fault yields the `error` outcome. -/
def checkAvailability (cfg : Config) (page : PageState) : CheckResult :=
  let _ := detectAndCloseModals page.modalScan
  let currentUrl := page.url
  if containsStr currentUrl "paso-1.aspx" || containsStr currentUrl "estatus.aspx" then
    match checkErrorMessages page with
    | some e => .outcome e
    | none =>
      if containsStr currentUrl "estatus.aspx" then
        match page.estatusInfo with
        | some info =>
          if !info.errors.isEmpty then
            .outcome { available := some false, status := "estatus_error",
                       message := "Errores en página de estatus: " ++
                         String.intercalate "; " info.errors,
                       url := currentUrl, allErrors := [] }
          else .clickLoop
        | none => .clickLoop
      else .clickLoop
  else if containsStr currentUrl cfg.errorUrlPattern then
    .outcome { available := some false, status := "no_availability",
               message := "No existen horas disponibles en la especialidad solicitada",
               url := currentUrl, allErrors := [] }
  else
    match page.content with
    | .error e =>
      .outcome { available := none, status := "error",
                 message := "Error durante verificación: " ++ e,
                 url := currentUrl, allErrors := [] }
    | .ok content => .outcome (contentSweep page content currentUrl)

/-! ## One iteration of the click-until-clear loop (lines 905–1029) -/

/-- The per-iteration observations of
`_click_especialidad_button_with_modal_retry`: an external interrupt, a
generic fault, whether any especialidades button was located, the modal
oracles for the pre-click and post-click guard runs, the page state after the
click, and the running attempt counter (used only in the interrupt
message). -/
structure ClickObs where
  interrupted : Bool
  fault : Bool
  buttonFound : Bool
  preModalPage : ModalPage
  postModalPage : ModalPage
  postPage : PageState
  retryCount : Nat
deriving Repr, DecidableEq

/-- The per-iteration result: retry the full cycle after a fixed delay
(milliseconds), or leave the loop with an outcome. -/
inductive RetryCycle where
  | cont (delayMs : Nat)
  | done (o : Outcome)
deriving Repr, DecidableEq

/-- One iteration of the infinite retry loop: interrupt → `user_interrupted`;
fault → retry after 3000 ms; button missing → retry after 3000 ms; guard
reports a post-click overlay → retry after 2000 ms; post-click error scan
transient (`timeout_error`/`estatus_error`) → retry after 2000 ms; any other
scan error is returned; otherwise `_continue_availability_check`'s outcome is
returned. -/
def clickCycleStep (obs : ClickObs) : RetryCycle :=
  if obs.interrupted then
    .done { available := none, status := "user_interrupted",
            message := "Usuario detuvo los reintentos después de " ++
              toString obs.retryCount ++ " intentos",
            url := obs.postPage.url, allErrors := [] }
  else if obs.fault then .cont 3000
  else if !obs.buttonFound then .cont 3000
  else
    let _ := detectAndCloseModals obs.preModalPage
    if detectAndCloseModals obs.postModalPage then .cont 2000
    else
      match checkErrorMessages obs.postPage with
      | some e =>
        if e.status = "timeout_error" || e.status = "estatus_error" then .cont 2000
        else .done e
      | none => .done (continueAvailabilityCheck obs.postPage)

/-! ## Automatic decision policy (`handle_error_automatically`, lines 1681–1729) -/

/-- `handle_error_automatically`: first run the guard — a dismissed modal
forces `retry_without_restart`; then `timeout_error`/`estatus_error` →
`retry_without_restart`; `no_availability_error`/`no_availability_content` →
`continue`; anything else → `retry_without_restart`. -/
def handleErrorAutomatically (mp : ModalPage) (errorInfo : Outcome) : String :=
  if detectAndCloseModals mp then "retry_without_restart"
  else if errorInfo.status = "timeout_error" || errorInfo.status = "estatus_error" then
    "retry_without_restart"
  else if errorInfo.status = "no_availability_error" ||
      errorInfo.status = "no_availability_content" then
    "continue"
  else "retry_without_restart"

/-! ## Spec-side definitions

These restate properties in the spec's wording, to be compared with the
source-translated definitions above. -/

/-- Spec-side checksum: weights cycling 2..7 right to left, the weight of the
digit at distance `i` from the right being `2 + i % 6` (the argument list is
the reversed digit list, `i` the starting distance). -/
def specSumFrom : List Char → Nat → Nat
  | [], _ => 0
  | d :: ds, i => (d.toNat - 48) * (2 + i % 6) + specSumFrom ds (i + 1)

/-- Spec-side expected check character: `0` when eleven minus the remainder
equals eleven, `K` when it equals ten, the digit otherwise. -/
def expectedDv (ds : List Char) : Char :=
  let resto := specSumFrom ds.reverse 0 % 11
  let dvc := 11 - resto
  if dvc = 11 then '0' else if dvc = 10 then 'K' else Char.ofNat (48 + dvc)

/-- Spec-side format: 7–8 digits, a dash, one digit-or-K. -/
def rutFormatSpec (l : List Char) : Prop :=
  ∃ ds c, l = ds ++ ['-', c] ∧ (ds.length = 7 ∨ ds.length = 8) ∧
    (∀ d ∈ ds, d.isDigit = true) ∧ (c.isDigit = true ∨ c = 'K')

/-- Spec-side validity: the stripped input matches the format and the
supplied check character equals the expected one. -/
def rutValidSpec (raw : String) : Prop :=
  ∃ ds c, (stripRut raw).data = ds ++ ['-', c] ∧
    (ds.length = 7 ∨ ds.length = 8) ∧ (∀ d ∈ ds, d.isDigit = true) ∧
    (c.isDigit = true ∨ c = 'K') ∧ c = expectedDv ds

/-- Spec-side continuous policy (amended wording): a dismissed modal forces
`retry_without_restart`; otherwise `no_availability_error` and
`no_availability_content` continue monitoring and every other status —
timeouts, estatus errors, plain `no_availability`, unknown kinds — retries
while keeping the session. -/
def continuousPolicySpec (modalFound : Bool) (status : String) : String :=
  if modalFound then "retry_without_restart"
  else if status = "no_availability_error" || status = "no_availability_content" then
    "continue"
  else "retry_without_restart"

/-- The `available` value determined by a `status` value: `some true` exactly
for `availability_found` and `possible_availability`; `some false` exactly
for `no_availability`, `no_availability_content`, `no_availability_error`,
`timeout_error`, `estatus_error`; `none` for every other status. -/
def availableOfStatus (s : String) : Option Bool :=
  if s = "availability_found" ∨ s = "possible_availability" then some true
  else if s = "no_availability" ∨ s = "no_availability_content" ∨
      s = "no_availability_error" ∨ s = "timeout_error" ∨ s = "estatus_error" then
    some false
  else none

/-- An outcome's `available` field is the one its `status` determines. -/
def statusAvailOk (o : Outcome) : Prop := o.available = availableOfStatus o.status

/-- `statusAvailOk` lifted to an optional outcome. -/
def opOk : Option Outcome → Prop
  | none => True
  | some e => statusAvailOk e

/-- `statusAvailOk` lifted to a classification result. -/
def resOk : CheckResult → Prop
  | .outcome o => statusAvailOk o
  | .clickLoop => True

/-- `statusAvailOk` lifted to a retry-cycle result. -/
def cycOk : RetryCycle → Prop
  | .cont _ => True
  | .done o => statusAvailOk o

/-! ## Concrete fixtures used by witnesses and counterexamples -/

/-- A modal oracle with no overlays and no fault. -/
def noModalPage : ModalPage := { scans := [], outerFault := false }

/-- A page with given URL and content and empty DOM oracles. -/
def plainPage (u c : String) : PageState :=
  { url := u, content := .ok c, errorSelectorTexts := [], estatusInfo := none,
    nextStepPresent := [], modalScan := noModalPage }

/-- A page whose content read raises (the fault text is the exception
message). -/
def faultPage (u msg : String) : PageState :=
  { url := u, content := .error msg, errorSelectorTexts := [],
    estatusInfo := none, nextStepPresent := [], modalScan := noModalPage }

/-- A click-loop iteration in which the especialidades button is not found
(no interrupt, no fault). -/
def idleObs : ClickObs :=
  { interrupted := false, fault := false, buttonFound := false,
    preModalPage := noModalPage, postModalPage := noModalPage,
    postPage := plainPage "https://example.cl/paso-2.aspx" "contenido",
    retryCount := 1 }

/-- The paso-1 page whose content holds both a bold error banner and an
availability keyword. -/
def bannerPage : PageState :=
  plainPage "https://tramites.munistgo.cl/reservahoralicencia/paso-1.aspx"
    "<b>Atención! Error: fallo</b> agendar cita"

/-- The outcome the error scan produces on `bannerPage`. -/
def bannerScanOutcome : Outcome :=
  { available := none, status := "unknown_error",
    message := "Error desconocido: Atención! Error: fallo",
    url := "https://tramites.munistgo.cl/reservahoralicencia/paso-1.aspx",
    allErrors := ["Atención! Error: fallo", "Error: fallo"] }



/-! char facts -/

theorem char_toNat_of_isDigit {d : Char} (hd : d.isDigit = true) :
    48 ≤ d.toNat ∧ d.toNat ≤ 57 := by
  simp only [Char.isDigit, Bool.and_eq_true, decide_eq_true_eq, ge_iff_le] at hd
  obtain ⟨h1, h2⟩ := hd
  exact ⟨UInt32.le_toNat_of_le (by norm_num) h1, UInt32.toNat_le_of_le (by norm_num) h2⟩

theorem digit_char_facts {d : Char} (hd : d.isDigit = true) :
    d ≠ ' ' ∧ d ≠ '.' ∧ pyUpper d = d := by
  obtain ⟨h1, h2⟩ := char_toNat_of_isDigit hd
  have hlo : ∀ x : Char, x.toNat < 48 → d ≠ x := by
    intro x hx h
    rw [h] at h1
    omega
  have hhi : ∀ x : Char, 57 < x.toNat → d ≠ x := by
    intro x hx h
    rw [h] at h2
    omega
  refine ⟨hlo ' ' (by decide), hlo '.' (by decide), ?_⟩
  unfold pyUpper
  rw [if_neg (hhi 'á' (by decide)), if_neg (hhi 'é' (by decide)),
      if_neg (hhi 'í' (by decide)), if_neg (hhi 'ó' (by decide)),
      if_neg (hhi 'ú' (by decide)), if_neg (hhi 'ñ' (by decide))]
  unfold Char.toUpper
  rw [if_neg]
  omega

/-! strip lemmas -/

theorem stripL_append (a b : List Char) :
    stripL (a ++ b) = stripL a ++ stripL b := by
  simp [stripL, List.filter_append]

theorem stripL_length_le (l : List Char) : (stripL l).length ≤ l.length := by
  simp only [stripL, List.length_map]
  exact le_trans (List.length_filter_le _ _) (List.length_filter_le _ _)

theorem stripL_single (c : Char) :
    stripL [c] = if c = ' ' then [] else if c = '.' then [] else [pyUpper c] := by
  by_cases h1 : c = ' ' <;> by_cases h2 : c = '.' <;> simp [stripL, h1, h2]

theorem stripL_fix_split {l : List Char} {c : Char}
    (h : stripL (l ++ [c]) = l ++ [c]) :
    stripL l = l ∧ c ≠ ' ' ∧ c ≠ '.' ∧ pyUpper c = c := by
  rw [stripL_append] at h
  have hlen : (stripL l).length = l.length := by
    have h1 := stripL_length_le l
    have h2 := stripL_length_le [c]
    have h3 := congrArg List.length h
    simp only [List.length_append, List.length_cons, List.length_nil] at h3
    simp only [List.length_cons, List.length_nil] at h2
    omega
  obtain ⟨hl, hc⟩ := List.append_inj h hlen
  refine ⟨hl, ?_⟩
  rw [stripL_single] at hc
  by_cases h1 : c = ' '
  · simp [h1] at hc
  · by_cases h2 : c = '.'
    · simp [h1, h2] at hc
    · simp only [h1, h2, if_false] at hc
      exact ⟨h1, h2, by simpa using hc⟩

theorem stripL_fix_of_all {l : List Char}
    (h : ∀ x ∈ l, x ≠ ' ' ∧ x ≠ '.' ∧ pyUpper x = x) : stripL l = l := by
  unfold stripL
  have h1 : l.filter (fun c => decide (c ≠ ' ')) = l :=
    List.filter_eq_self.mpr (fun a ha => by simpa using (h a ha).1)
  rw [h1]
  have h2 : l.filter (fun c => decide (c ≠ '.')) = l :=
    List.filter_eq_self.mpr (fun a ha => by simpa using (h a ha).2.1)
  rw [h2]
  calc l.map pyUpper = l.map id := List.map_congr_left (fun a ha => (h a ha).2.2)
  _ = l := List.map_id l

/-! checksum spec -/

theorem rutChecksumAux_eq_spec : ∀ (l : List Char) (k : Nat),
    rutChecksumAux l (2 + k % 6) = specSumFrom l k := by
  intro l
  induction l with
  | nil => intro k; rfl
  | cons d ds ih =>
    intro k
    have hm : (if 2 + k % 6 + 1 > 7 then 2 else 2 + k % 6 + 1) = 2 + (k + 1) % 6 := by
      split <;> omega
    simp only [rutChecksumAux, specSumFrom, hm, ih]

theorem rutDv_eq_expected (ds : List Char) : rutDv ds = expectedDv ds := by
  have h := rutChecksumAux_eq_spec ds.reverse 0
  norm_num at h
  unfold rutDv expectedDv
  rw [h]

/-! format characterization -/

theorem isRutFormat_iff {l : List Char} : isRutFormat l = true ↔ rutFormatSpec l := by
  constructor
  · intro h
    unfold isRutFormat at h
    rcases hrev : l.reverse with _ | ⟨c, rest⟩
    · rw [hrev] at h; simp at h
    rcases rest with _ | ⟨d, rds⟩
    · rw [hrev] at h; simp at h
    rw [hrev] at h
    simp only [Bool.and_eq_true, Bool.or_eq_true, decide_eq_true_eq,
      List.all_eq_true] at h
    obtain ⟨⟨⟨hd, hlen⟩, hdig⟩, hc⟩ := h
    have hl : l = rds.reverse ++ ['-', c] := by
      have h2 := congrArg List.reverse hrev
      simp only [List.reverse_reverse, List.reverse_cons, List.append_assoc] at h2
      rw [h2, hd]
      simp
    refine ⟨rds.reverse, c, hl, by simpa using hlen, ?_, hc⟩
    intro x hx
    exact hdig x (List.mem_reverse.mp hx)
  · rintro ⟨ds, c, rfl, hlen, hdig, hc⟩
    unfold isRutFormat
    have hrev : (ds ++ ['-', c]).reverse = c :: '-' :: ds.reverse := by simp
    rw [hrev]
    simp only [Bool.and_eq_true, Bool.or_eq_true, decide_eq_true_eq,
      List.all_eq_true, List.length_reverse]
    refine ⟨⟨⟨by trivial, hlen⟩, ?_⟩, hc⟩
    intro x hx
    exact hdig x (List.mem_reverse.mp hx)

/-! validate characterization -/

theorem validateRut_iff {raw : String} :
    validateRut raw = true ↔ rutValidSpec raw := by
  unfold validateRut rutValidSpec
  by_cases hf : isRutFormat (stripRut raw).data
  · rw [if_pos hf]
    obtain ⟨ds, c, hl, hlen, hdig, hc⟩ := isRutFormat_iff.mp hf
    have hrev : (stripRut raw).data.reverse = c :: '-' :: ds.reverse := by
      rw [hl]; simp
    rw [hrev]
    simp only [List.reverse_reverse, decide_eq_true_eq]
    constructor
    · intro h
      exact ⟨ds, c, hl, hlen, hdig, hc, by rw [← rutDv_eq_expected]; exact h⟩
    · rintro ⟨ds', c', heq, _, _, _, hdv⟩
      rw [hl] at heq
      have hlen2 : ds.length = ds'.length := by
        have := congrArg List.length heq
        simp only [List.length_append, List.length_cons, List.length_nil] at this
        omega
      obtain ⟨hds, hcs⟩ := List.append_inj heq hlen2
      have hcc : c = c' := by simpa using hcs
      rw [hcc, hdv, hds, rutDv_eq_expected]
  · rw [if_neg hf]
    constructor
    · intro h; exact absurd h (by simp)
    · rintro ⟨ds, c, hl, hlen, hdig, hc, hdv⟩
      exact absurd (isRutFormat_iff.mpr ⟨ds, c, hl, hlen, hdig, hc⟩) hf



theorem validate_of_format {raw : String} (h : validateRut raw = true) :
    validateRut (formatRut raw) = true := by
  obtain ⟨ds, c, hl, hlen, hdig, hc, hdv⟩ := validateRut_iff.mp h
  have hcont : '-' ∈ (stripRut raw).data := by
    rw [hl]
    simp
  have hfmt : formatRut raw = stripRut raw := by
    simp [formatRut, hcont]
  rw [hfmt]
  apply validateRut_iff.mpr
  have hfix : stripL (stripRut raw).data = (stripRut raw).data := by
    rw [hl]
    apply stripL_fix_of_all
    intro x hx
    simp only [List.mem_append, List.mem_cons, List.not_mem_nil, or_false] at hx
    rcases hx with hx | hx | hx
    · exact digit_char_facts (hdig x hx)
    · subst hx; exact ⟨by decide, by decide, by decide⟩
    · subst hx
      rcases hc with hc | hc
      · exact digit_char_facts hc
      · subst hc; exact ⟨by decide, by decide, by decide⟩
  refine ⟨ds, c, ?_, hlen, hdig, hc, hdv⟩
  show stripL (stripRut raw).data = _
  rw [hfix, hl]

theorem validate_mutation {l : List Char} {c c' : Char}
    (hv : validateRut (String.mk (l ++ [c])) = true)
    (hfix : stripL (l ++ [c]) = l ++ [c])
    (hne : pyUpper c' ≠ pyUpper c) :
    validateRut (String.mk (l ++ [c'])) = false := by
  obtain ⟨hl, hcsp, hcdot, hcup⟩ := stripL_fix_split hfix
  obtain ⟨ds, cc, heq, hlen, hdig, hck, hdv⟩ := validateRut_iff.mp hv
  have hstr : (stripRut (String.mk (l ++ [c]))).data = l ++ [c] := hfix
  rw [hstr] at heq
  have heq2 : l ++ [c] = (ds ++ ['-']) ++ [cc] := by rw [heq]; simp
  have hlen3 : l.length = (ds ++ ['-']).length := by
    have h5 := congrArg List.length heq2
    simp only [List.length_append, List.length_cons, List.length_nil] at h5 ⊢
    omega
  obtain ⟨hlds, hccc⟩ := List.append_inj heq2 hlen3
  have hceq : c = cc := by simpa using hccc
  have hstrip2 : (stripRut (String.mk (l ++ [c']))).data = l ++ stripL [c'] := by
    show stripL (l ++ [c']) = _
    rw [stripL_append, hl]
  by_cases hsp : c' = ' ' ∨ c' = '.'
  · have hempty : stripL [c'] = [] := by
      rcases hsp with h | h <;> simp [stripL_single, h]
    cases hres : validateRut (String.mk (l ++ [c'])) with
    | false => rfl
    | true =>
      exfalso
      obtain ⟨ds2, c2, heq3, _, hdig2, _, _⟩ := validateRut_iff.mp hres
      rw [hstrip2, hempty, List.append_nil, hlds] at heq3
      have hrev3 := congrArg List.reverse heq3
      simp only [List.reverse_append, List.reverse_cons, List.reverse_nil,
        List.nil_append, List.cons_append, List.append_nil] at hrev3
      obtain ⟨h6, h7⟩ := List.cons.inj hrev3
      have : '-' ∈ ds := by
        rw [← List.mem_reverse, h7]
        exact List.mem_cons_self _ _
      have := hdig '-' this
      exact absurd this (by decide)
  · push_neg at hsp
    have hone : stripL [c'] = [pyUpper c'] := by
      simp [stripL_single, hsp.1, hsp.2]
    cases hres : validateRut (String.mk (l ++ [c'])) with
    | false => rfl
    | true =>
      exfalso
      obtain ⟨ds2, c2, heq3, _, _, _, hdv2⟩ := validateRut_iff.mp hres
      rw [hstrip2, hone, hlds] at heq3
      have heq4 : (ds ++ ['-']) ++ [pyUpper c'] = (ds2 ++ ['-']) ++ [c2] := by
        rw [heq3]; simp
      have hlen4 : (ds ++ ['-']).length = (ds2 ++ ['-']).length := by
        have h5 := congrArg List.length heq4
        simp only [List.length_append, List.length_cons, List.length_nil] at h5 ⊢
        omega
      obtain ⟨h8, h9⟩ := List.append_inj heq4 hlen4
      have hds : ds = ds2 := by
        have hlen5 : ds.length = ds2.length := by
          have h5 := congrArg List.length h8
          simp only [List.length_append, List.length_cons, List.length_nil] at h5
          omega
        exact (List.append_inj h8 hlen5).1
      have hup : pyUpper c' = c2 := by simpa using h9
      apply hne
      rw [hup, hdv2, ← hds, ← hdv, ← hceq, hcup]


/-! ## Classifier and guard lemmas -/

theorem checkErrorMessages_cases {page : PageState} {e : Outcome}
    (h : checkErrorMessages page = some e) :
    (e.status = "timeout_error" ∧ e.available = some false) ∨
    (e.status = "no_availability_error" ∧ e.available = some false) ∨
    (e.status = "unknown_error" ∧ e.available = none) := by
  unfold checkErrorMessages at h
  cases hc : page.content with
  | error msg => rw [hc] at h; simp at h
  | ok content =>
    rw [hc] at h
    simp only [] at h
    split at h
    · simp at h
    · split at h
      · injection h with h4
        rw [← h4]
        exact Or.inl ⟨rfl, rfl⟩
      · split at h
        · injection h with h4
          rw [← h4]
          exact Or.inr (Or.inl ⟨rfl, rfl⟩)
        · injection h with h4
          rw [← h4]
          exact Or.inr (Or.inr ⟨rfl, rfl⟩)

theorem contentSweep_statusOk (page : PageState) (content : String) (u : String) :
    statusAvailOk (contentSweep page content u) := by
  simp only [contentSweep]
  split
  · exact rfl
  · split
    · exact rfl
    · split
      · exact rfl
      · exact rfl

theorem checkErrorMessages_statusOk (page : PageState) :
    opOk (checkErrorMessages page) := by
  unfold checkErrorMessages
  cases hc : page.content with
  | error msg => trivial
  | ok content =>
    simp only []
    split
    · trivial
    · split
      · exact rfl
      · split
        · exact rfl
        · exact rfl

theorem continueAvailabilityCheck_statusOk (page : PageState) :
    statusAvailOk (continueAvailabilityCheck page) := by
  unfold continueAvailabilityCheck
  cases hc : page.content with
  | error msg => exact rfl
  | ok content => exact contentSweep_statusOk page content page.url

theorem checkAvailability_statusOk (cfg : Config) (page : PageState) :
    resOk (checkAvailability cfg page) := by
  unfold checkAvailability
  simp only []
  split
  · split
    · rename_i e heq
      show statusAvailOk e
      have h := checkErrorMessages_statusOk page
      rw [heq] at h
      exact h
    · split
      · split
        · split
          · exact rfl
          · trivial
        · trivial
      · trivial
  · split
    · exact rfl
    · split
      · exact rfl
      · rename_i content heq
        exact contentSweep_statusOk page content page.url

theorem clickCycleStep_statusOk (obs : ClickObs) :
    cycOk (clickCycleStep obs) := by
  unfold clickCycleStep
  split
  · exact rfl
  · split
    · trivial
    · split
      · trivial
      · split
        · trivial
        · split
          · rename_i e heq
            split
            · trivial
            · show statusAvailOk e
              have h := checkErrorMessages_statusOk obs.postPage
              rw [heq] at h
              exact h
          · exact continueAvailabilityCheck_statusOk obs.postPage

theorem scanModals_eq_true_iff {l : List ModalEl} :
    scanModals l = true ↔
      ∃ pre m post, l = pre ++ m :: post ∧ (∀ x ∈ pre, x.probeFault = false) ∧
        m.probeFault = false ∧ modalVisible m = true := by
  induction l with
  | nil =>
    simp only [scanModals, Bool.false_eq_true, false_iff]
    rintro ⟨pre, m, post, hd, -, -, -⟩
    exact absurd hd (by simp)
  | cons m rest ih =>
    simp only [scanModals]
    by_cases hf : m.probeFault
    · simp only [hf, if_true, Bool.false_eq_true, false_iff]
      rintro ⟨pre, m', post, hd, hpre, hm', -⟩
      cases pre with
      | nil =>
        simp only [List.nil_append, List.cons.injEq] at hd
        rw [← hd.1, hf] at hm'
        exact absurd hm' (by simp)
      | cons p ps =>
        simp only [List.cons_append, List.cons.injEq] at hd
        have hp := hpre p (List.mem_cons_self p ps)
        rw [← hd.1, hf] at hp
        exact absurd hp (by simp)
    · have hf' : m.probeFault = false := by
        cases h : m.probeFault
        · rfl
        · exact absurd h hf
      simp only [hf', if_false, Bool.or_eq_true, ih, Bool.false_eq_true]
      constructor
      · rintro (hv | ⟨pre, m', post, hd, hpre, hm', hv⟩)
        · exact ⟨[], m, rest, rfl, by simp, hf', hv⟩
        · refine ⟨m :: pre, m', post, by simp [hd], ?_, hm', hv⟩
          intro x hx
          rcases List.mem_cons.mp hx with hx | hx
          · rw [hx]; exact hf'
          · exact hpre x hx
      · rintro ⟨pre, m', post, hd, hpre, hm', hv⟩
        cases pre with
        | nil =>
          simp only [List.nil_append, List.cons.injEq] at hd
          left
          rw [hd.1]
          exact hv
        | cons p ps =>
          simp only [List.cons_append, List.cons.injEq] at hd
          right
          refine ⟨ps, m', post, hd.2, ?_, hm', hv⟩
          intro x hx
          exact hpre x (List.mem_cons_of_mem p hx)

theorem detect_foldl_or (l : List (List ModalEl)) (b : Bool) :
    l.foldl (fun acc sel => acc || scanModals sel) b = (b || l.any scanModals) := by
  induction l generalizing b with
  | nil => simp
  | cons s rest ih => simp [List.any_cons, ih, Bool.or_assoc]

/-! ## Claim theorems -/

/-- Claim C1 (amended): a page state whose URL contains the configured
no-availability error URL pattern is classified `no_availability`
(`available = false`) ahead of every content-based rule, **provided** the URL
does not also contain `paso-1.aspx` or `estatus.aspx`; URLs containing those
markers — which includes every URL matching the default pattern — are routed
into the paso-1/estatus branch first. -/
theorem c1_url_pattern_unavailable (cfg : Config) (page : PageState)
    (h1 : containsStr page.url "paso-1.aspx" = false)
    (h2 : containsStr page.url "estatus.aspx" = false)
    (h3 : containsStr page.url cfg.errorUrlPattern = true) :
    checkAvailability cfg page = .outcome
      { available := some false, status := "no_availability",
        message := "No existen horas disponibles en la especialidad solicitada",
        url := page.url, allErrors := [] } := by
  simp [checkAvailability, h1, h2, h3]

/-- Claim C1, witness: with the pattern configured to `Error=No`, a matching
URL classifies as `no_availability` even though the content holds an
availability keyword. -/
theorem c1_url_pattern_unavailable_witness :
    checkAvailability { errorUrlPattern := "Error=No" }
      (plainPage "https://example.cl/reserva.aspx?Error=No" "agendar cita") =
    .outcome { available := some false, status := "no_availability",
               message := "No existen horas disponibles en la especialidad solicitada",
               url := "https://example.cl/reserva.aspx?Error=No", allErrors := [] } :=
  c1_url_pattern_unavailable { errorUrlPattern := "Error=No" }
    (plainPage "https://example.cl/reserva.aspx?Error=No" "agendar cita")
    (by decide) (by decide) (by decide)

/-- Claim C1, counterexample: the default error URL pattern itself contains
`paso-1.aspx`, so a URL containing it enters the paso-1 branch, where timeout
content classifies as `timeout_error` — not `no_availability` — refuting the
claimed priority of the URL-pattern rule over every other rule. -/
theorem c1_counterexample :
    containsStr
      "https://tramites.munistgo.cl/reservahoralicencia/paso-1.aspx?Error=No%20existen%20horas%20disponibles"
      defaultConfig.errorUrlPattern = true ∧
    checkAvailability defaultConfig
      (plainPage
        "https://tramites.munistgo.cl/reservahoralicencia/paso-1.aspx?Error=No%20existen%20horas%20disponibles"
        "Ud. ha excedido el tiempo máximo de espera") =
    .outcome { available := some false, status := "timeout_error",
               message := "Error de timeout detectado: Ud. ha excedido el tiempo máximo de espera",
               url := "https://tramites.munistgo.cl/reservahoralicencia/paso-1.aspx?Error=No%20existen%20horas%20disponibles",
               allErrors := ["Ud. ha excedido el tiempo máximo de espera",
                             "tiempo máximo de espera"] } :=
  ⟨by decide, by decide⟩

/-- Claim C2 (amended): in the paso-1/estatus branch the error scan runs
before any keyword heuristic, so whenever the scan reports an error the
classification is that Error variant (`timeout_error`,
`no_availability_error` or `unknown_error`) and never `Available`, regardless
of availability keywords in the content; in the generic-content path no
banner scan precedes the keyword heuristic. -/
theorem c2_error_scan_priority (cfg : Config) (page : PageState) (e : Outcome)
    (hurl : containsStr page.url "paso-1.aspx" = true ∨
      containsStr page.url "estatus.aspx" = true)
    (hscan : checkErrorMessages page = some e) :
    checkAvailability cfg page = .outcome e ∧
      (e.status = "timeout_error" ∨ e.status = "no_availability_error" ∨
        e.status = "unknown_error") ∧
      e.available ≠ some true := by
  have hor : (containsStr page.url "paso-1.aspx" ||
      containsStr page.url "estatus.aspx") = true := by
    rcases hurl with h | h <;> simp [h]
  refine ⟨by simp [checkAvailability, hor, hscan], ?_, ?_⟩
  · rcases checkErrorMessages_cases hscan with ⟨h, -⟩ | ⟨h, -⟩ | ⟨h, -⟩
    · exact Or.inl h
    · exact Or.inr (Or.inl h)
    · exact Or.inr (Or.inr h)
  · rcases checkErrorMessages_cases hscan with ⟨-, h⟩ | ⟨-, h⟩ | ⟨-, h⟩ <;>
      simp [h]

/-- Claim C2, witness: on a paso-1 page whose content holds both a bold error
banner and the availability keyword `agendar cita`, classification returns
the scan's `unknown_error` outcome, not `Available`. -/
theorem c2_error_scan_priority_witness :
    checkAvailability defaultConfig bannerPage = .outcome bannerScanOutcome ∧
      (bannerScanOutcome.status = "timeout_error" ∨
        bannerScanOutcome.status = "no_availability_error" ∨
        bannerScanOutcome.status = "unknown_error") ∧
      bannerScanOutcome.available ≠ some true :=
  c2_error_scan_priority defaultConfig bannerPage bannerScanOutcome
    (Or.inl (by decide)) (by decide)

/-- Claim C2, counterexample: on a non-paso-1 URL the same banner-plus-keyword
content classifies as `availability_found` (`available = true`): no error
scan runs in that path, refuting "error-banner detection outranks the
availability-keyword heuristic in every classification path". -/
theorem c2_counterexample :
    checkAvailability defaultConfig
      (plainPage "https://tramites.munistgo.cl/reservahoralicencia/otra.aspx"
        "<b>Atención! Error: fallo</b> agendar cita") =
    .outcome { available := some true, status := "availability_found",
               message := "Disponibilidad detectada: agendar cita",
               url := "https://tramites.munistgo.cl/reservahoralicencia/otra.aspx",
               allErrors := [] } := by decide

/-- Claim C3 (amended): `handle_error_automatically` is total and equals the
policy: a dismissed modal yields `retry_without_restart` regardless of error
kind; otherwise `no_availability_error` and `no_availability_content` yield
`continue`, and every other status — `timeout_error`, `estatus_error`, plain
`no_availability`, and unknown kinds — yields `retry_without_restart`. -/
theorem c3_continuous_policy (mp : ModalPage) (o : Outcome) :
    handleErrorAutomatically mp o =
      continuousPolicySpec (detectAndCloseModals mp) o.status := by
  unfold handleErrorAutomatically continuousPolicySpec
  by_cases hm : detectAndCloseModals mp
  · simp [hm]
  · simp only [hm, if_false, Bool.false_eq_true]
    by_cases ht : o.status = "timeout_error"
    · simp [ht]
    · by_cases he : o.status = "estatus_error"
      · simp [he]
      · simp [ht, he]

/-- Claim C3, counterexample: an `Unavailable{NoAvailability}` outcome
(status `no_availability`) yields `retry_without_restart`, not the
`continue` the claim requires for every Unavailable outcome. -/
theorem c3_counterexample :
    handleErrorAutomatically { scans := [], outerFault := false }
      { available := some false, status := "no_availability",
        message := "No existen horas disponibles en la especialidad solicitada",
        url := "https://tramites.munistgo.cl/reservahoralicencia/x.aspx",
        allErrors := [] } = "retry_without_restart" := by decide

/-- Claim C4: one iteration of the click-until-clear loop retries after a
fixed delay when the button is missing, when the guard reports a post-click
overlay, or when the post-click scan reports a transient
`timeout_error`/`estatus_error`; any other scan error is returned unchanged,
and otherwise the continuation check's outcome is returned unchanged. -/
theorem c4_click_cycle_policy (obs : ClickObs)
    (hni : obs.interrupted = false) (hnf : obs.fault = false) :
    (obs.buttonFound = false → clickCycleStep obs = .cont 3000) ∧
    (detectAndCloseModals obs.postModalPage = true → obs.buttonFound = true →
      clickCycleStep obs = .cont 2000) ∧
    (∀ e, obs.buttonFound = true → detectAndCloseModals obs.postModalPage = false →
      checkErrorMessages obs.postPage = some e →
      (e.status = "timeout_error" ∨ e.status = "estatus_error") →
      clickCycleStep obs = .cont 2000) ∧
    (∀ e, obs.buttonFound = true → detectAndCloseModals obs.postModalPage = false →
      checkErrorMessages obs.postPage = some e →
      e.status ≠ "timeout_error" → e.status ≠ "estatus_error" →
      clickCycleStep obs = .done e) ∧
    (obs.buttonFound = true → detectAndCloseModals obs.postModalPage = false →
      checkErrorMessages obs.postPage = none →
      clickCycleStep obs = .done (continueAvailabilityCheck obs.postPage)) := by
  refine ⟨?_, ?_, ?_, ?_, ?_⟩
  · intro hb
    simp [clickCycleStep, hni, hnf, hb]
  · intro hm hb
    simp [clickCycleStep, hni, hnf, hb, hm]
  · intro e hb hm hscan hst
    simp only [clickCycleStep, hni, hnf, hb, hm, hscan, Bool.false_eq_true,
      if_false, Bool.not_true, Bool.false_and, Bool.and_self]
    rcases hst with h | h <;> simp [h]
  · intro e hb hm hscan h1 h2
    simp only [clickCycleStep, hni, hnf, hb, hm, hscan, Bool.false_eq_true,
      if_false]
    simp [h1, h2]
  · intro hb hm hscan
    simp [clickCycleStep, hni, hnf, hb, hm, hscan]

/-- Claim C4, witness: an iteration that does not find the button retries
after 3000 ms. -/
theorem c4_click_cycle_policy_witness : clickCycleStep idleObs = RetryCycle.cont 3000 :=
  (c4_click_cycle_policy idleObs rfl rfl).1 rfl

/-- Claim C5: `validate` returns true iff the stripped, upper-cased input
matches the 7–8-digits/dash/digit-or-K format and the supplied check
character equals the expected one computed by the weighted checksum (weights
cycling 2..7 right to left, `0` when eleven minus the remainder equals
eleven, `K` when it equals ten, the digit otherwise); in particular
`validate "18977386-2"` returns true. -/
theorem c5_validate_characterization :
    (∀ raw : String, validateRut raw = true ↔ rutValidSpec raw) ∧
      validateRut "18977386-2" = true :=
  ⟨fun _ => validateRut_iff, by decide⟩

/-- Claim C6 (amended): for every valid identifier, normalize-then-validate
returns true; and for a canonical-form valid identifier, replacing the check
character with any character whose upper-cased form differs makes validate
return false (a case-only `K`/`k` change preserves validity). -/
theorem c6_normalize_and_check_mutation :
    (∀ raw : String, validateRut raw = true → validateRut (formatRut raw) = true) ∧
    (∀ (l : List Char) (c c' : Char),
      validateRut (String.mk (l ++ [c])) = true →
      stripL (l ++ [c]) = l ++ [c] →
      pyUpper c' ≠ pyUpper c →
      validateRut (String.mk (l ++ [c'])) = false) :=
  ⟨fun _ => validate_of_format, fun _ _ _ => validate_mutation⟩

/-- Claim C6, witness: normalize-then-validate holds at `18977386-2`, and
mutating the check character of `1234564-K` to `9` invalidates it. -/
theorem c6_normalize_and_check_mutation_witness :
    validateRut (formatRut "18977386-2") = true ∧
      validateRut (String.mk ("1234564-".data ++ ['9'])) = false :=
  ⟨c6_normalize_and_check_mutation.1 "18977386-2" (by decide),
   c6_normalize_and_check_mutation.2 "1234564-".data 'K' '9' (by decide) (by decide) (by decide)⟩

/-- Claim C6, counterexample: `1234564-K` is valid and so is its mutation
`1234564-k` — a single-character change of the check character that validate
still accepts, because validation upper-cases its input. -/
theorem c6_counterexample :
    validateRut "1234564-K" = true ∧ validateRut "1234564-k" = true ∧ 'k' ≠ 'K' := by
  refine ⟨by decide, by decide, by decide⟩

/-- Claim C7 (amended): `_format_rut` strips spaces (not all whitespace) and
periods and upper-cases; it inserts a dash before the final character only
when the stripped result contains no dash **and** has length at least 8. -/
theorem c7_format_rut_rules (s : String) :
    ('-' ∈ (stripRut s).data ∨ (stripRut s).data.length < 8 →
      formatRut s = stripRut s) ∧
    ('-' ∉ (stripRut s).data → 8 ≤ (stripRut s).data.length →
      (formatRut s).data =
        (stripRut s).data.dropLast ++ ['-'] ++
          (stripRut s).data.drop ((stripRut s).data.length - 1)) := by
  constructor
  · intro h
    rcases h with h | h
    · simp [formatRut, h]
    · simp only [formatRut]
      rw [if_neg]
      simp only [Bool.and_eq_true, Bool.not_eq_true', decide_eq_true_eq, not_and, not_le]
      intro _
      omega
  · intro h1 h2
    simp only [formatRut]
    rw [if_pos]
    · rcases hrev : (stripRut s).data.reverse with _ | ⟨last, restRev⟩
      · exfalso
        have h3 := congrArg List.length hrev
        simp only [List.length_reverse, List.length_nil] at h3
        omega
      · have hcs : (stripRut s).data = restRev.reverse ++ [last] := by
          have h4 := congrArg List.reverse hrev
          simpa using h4
        show restRev.reverse ++ ['-', last] = _
        rw [hcs]
        have hdl : (restRev.reverse ++ [last]).dropLast = restRev.reverse :=
          List.dropLast_concat ..
        have hlen : (restRev.reverse ++ [last]).length - 1 = restRev.reverse.length := by
          simp [List.length_append]
        have hdr : (restRev.reverse ++ [last]).drop restRev.reverse.length = [last] :=
          List.drop_left ..
        rw [hdl, hlen, hdr]
        simp
    · simp only [Bool.and_eq_true, Bool.not_eq_true', decide_eq_true_eq]
      constructor
      · simp [h1]
      · exact h2

/-- Claim C7, counterexample: a 7-character dashless input is returned
without a dash (the claim requires insertion whenever no dash is present),
and a tab survives stripping (the claim says whitespace is stripped). -/
theorem c7_counterexample :
    formatRut "1234567" = "1234567" ∧ formatRut "\t1234567" = "\t123456-7" :=
  ⟨by decide, by decide⟩

/-- Claim C7, witness: a dashed input is returned stripped only, and a
9-character dashless input gets the dash inserted before its final
character. -/
theorem c7_format_rut_rules_witness :
    formatRut "12.345.678-5" = stripRut "12.345.678-5" ∧
      (formatRut "123456785").data =
        (stripRut "123456785").data.dropLast ++ ['-'] ++
          (stripRut "123456785").data.drop ((stripRut "123456785").data.length - 1) :=
  ⟨(c7_format_rut_rules "12.345.678-5").1 (Or.inl (by decide)),
   (c7_format_rut_rules "123456785").2 (by decide) (by decide)⟩

/-- Claim C8: classification never propagates a fault: a failing content read
makes the error-message scan return no-error (its own handler), makes
`_continue_availability_check` return the `error` outcome
(`available = none`), and makes `check_availability`'s generic branch return
the `error` outcome (`available = none`) — all returned normally. -/
theorem c8_fault_conversion (cfg : Config) (page : PageState) (msg : String)
    (hfault : page.content = .error msg) :
    checkErrorMessages page = none ∧
    continueAvailabilityCheck page =
      { available := none, status := "error",
        message := "Error durante verificación continua: " ++ msg,
        url := page.url, allErrors := [] } ∧
    (containsStr page.url "paso-1.aspx" = false →
      containsStr page.url "estatus.aspx" = false →
      containsStr page.url cfg.errorUrlPattern = false →
      checkAvailability cfg page = .outcome
        { available := none, status := "error",
          message := "Error durante verificación: " ++ msg,
          url := page.url, allErrors := [] }) := by
  refine ⟨?_, ?_, ?_⟩
  · simp [checkErrorMessages, hfault]
  · simp [continueAvailabilityCheck, hfault]
  · intro h1 h2 h3
    simp [checkAvailability, h1, h2, h3, hfault]

/-- Claim C8, witness: a page whose content read raises is classified
`error` with `available = none`, and the scan swallows the fault. -/
theorem c8_fault_conversion_witness :
    checkErrorMessages (faultPage "https://example.cl/reserva.aspx" "net timeout") = none ∧
    checkAvailability defaultConfig
      (faultPage "https://example.cl/reserva.aspx" "net timeout") =
    .outcome { available := none, status := "error",
               message := "Error durante verificación: " ++ "net timeout",
               url := "https://example.cl/reserva.aspx", allErrors := [] } :=
  ⟨(c8_fault_conversion defaultConfig
      (faultPage "https://example.cl/reserva.aspx" "net timeout") "net timeout" rfl).1,
   (c8_fault_conversion defaultConfig
      (faultPage "https://example.cl/reserva.aspx" "net timeout") "net timeout" rfl).2.2
     (by decide) (by decide) (by decide)⟩

/-- Claim C9: the interstitial guard returns true iff its scan reaches (no
prior probe fault in that selector's list) a visible overlay element —
independently of close controls or dismissal success — returns false when no
visible overlay exists, and a fault reaching its outer handler yields false
rather than an exception. -/
theorem c9_detect_modals_iff (mp : ModalPage) :
    detectAndCloseModals mp = true ↔
      (mp.outerFault = false ∧ ∃ sel ∈ mp.scans, ∃ pre m post,
        sel = pre ++ m :: post ∧ (∀ x ∈ pre, x.probeFault = false) ∧
        m.probeFault = false ∧ modalVisible m = true) := by
  unfold detectAndCloseModals
  by_cases hf : mp.outerFault
  · simp [hf]
  · have hf' : mp.outerFault = false := by
      cases h : mp.outerFault
      · rfl
      · exact absurd h hf
    rw [if_neg hf, detect_foldl_or]
    simp only [Bool.false_or, List.any_eq_true, hf', true_and]
    constructor
    · rintro ⟨sel, hsel, hscan⟩
      exact ⟨sel, hsel, scanModals_eq_true_iff.mp hscan⟩
    · rintro ⟨sel, hsel, hdecomp⟩
      exact ⟨sel, hsel, scanModals_eq_true_iff.mpr hdecomp⟩

/-- Claim C10: in every outcome produced by the classifier, the error scan,
the continuation check, or a click-loop iteration, the `available` field is
the one determined by the `status` field (`availableOfStatus`). -/
theorem c10_available_determined_by_status (cfg : Config) (page : PageState) (obs : ClickObs) :
    resOk (checkAvailability cfg page) ∧ opOk (checkErrorMessages page) ∧
      statusAvailOk (continueAvailabilityCheck page) ∧ cycOk (clickCycleStep obs) :=
  ⟨checkAvailability_statusOk cfg page, checkErrorMessages_statusOk page,
   continueAvailabilityCheck_statusOk page, clickCycleStep_statusOk obs⟩

end LicenciaScraper
